import Mathlib

/-!
Verification development for the generation-request pipeline of the
GenSocialMedia repository.

The definitions below are a shallow embedding of the TypeScript source:
  - lib/openai.ts            (generateSocialMediaContent, StructuredContent)
  - app/api/generate/route.ts (POST handler, generateSchema)
  - app/api/posts/route.ts    (GET handler)

JavaScript strings are modelled as Lean strings, JSON.parse as an executable
recursive-descent parser over the JSON grammar, the Prisma store as an explicit
state record, and the external OpenAI call as a parameter describing the
outcome of the provider invocation.
-/

/-- A JavaScript JSON value, as produced by JSON.parse.  Numbers keep the
source lexeme read by the parser (their exact double value never matters to
any behaviour modelled here beyond being zero or not). -/
inductive Json where
  | null : Json
  | bool (b : Bool) : Json
  | num (lexeme : String) : Json
  | str (s : String) : Json
  | arr (elements : List Json) : Json
  | obj (fields : List (String × Json)) : Json

mutual
/-- Decidable equality of JSON values (the nested lists rule out automatic
derivation). -/
def jsonDecEq : (a b : Json) → Decidable (a = b)
  | Json.null, Json.null => isTrue rfl
  | Json.null, Json.bool _ => isFalse (fun h => Json.noConfusion h)
  | Json.null, Json.num _ => isFalse (fun h => Json.noConfusion h)
  | Json.null, Json.str _ => isFalse (fun h => Json.noConfusion h)
  | Json.null, Json.arr _ => isFalse (fun h => Json.noConfusion h)
  | Json.null, Json.obj _ => isFalse (fun h => Json.noConfusion h)
  | Json.bool _, Json.null => isFalse (fun h => Json.noConfusion h)
  | Json.bool a, Json.bool b =>
    if h : a = b then isTrue (by rw [h]) else isFalse (fun hh => h (by injection hh))
  | Json.bool _, Json.num _ => isFalse (fun h => Json.noConfusion h)
  | Json.bool _, Json.str _ => isFalse (fun h => Json.noConfusion h)
  | Json.bool _, Json.arr _ => isFalse (fun h => Json.noConfusion h)
  | Json.bool _, Json.obj _ => isFalse (fun h => Json.noConfusion h)
  | Json.num _, Json.null => isFalse (fun h => Json.noConfusion h)
  | Json.num _, Json.bool _ => isFalse (fun h => Json.noConfusion h)
  | Json.num a, Json.num b =>
    if h : a = b then isTrue (by rw [h]) else isFalse (fun hh => h (by injection hh))
  | Json.num _, Json.str _ => isFalse (fun h => Json.noConfusion h)
  | Json.num _, Json.arr _ => isFalse (fun h => Json.noConfusion h)
  | Json.num _, Json.obj _ => isFalse (fun h => Json.noConfusion h)
  | Json.str _, Json.null => isFalse (fun h => Json.noConfusion h)
  | Json.str _, Json.bool _ => isFalse (fun h => Json.noConfusion h)
  | Json.str _, Json.num _ => isFalse (fun h => Json.noConfusion h)
  | Json.str a, Json.str b =>
    if h : a = b then isTrue (by rw [h]) else isFalse (fun hh => h (by injection hh))
  | Json.str _, Json.arr _ => isFalse (fun h => Json.noConfusion h)
  | Json.str _, Json.obj _ => isFalse (fun h => Json.noConfusion h)
  | Json.arr _, Json.null => isFalse (fun h => Json.noConfusion h)
  | Json.arr _, Json.bool _ => isFalse (fun h => Json.noConfusion h)
  | Json.arr _, Json.num _ => isFalse (fun h => Json.noConfusion h)
  | Json.arr _, Json.str _ => isFalse (fun h => Json.noConfusion h)
  | Json.arr xs, Json.arr ys =>
    match jsonListDecEq xs ys with
    | isTrue h => isTrue (by rw [h])
    | isFalse h => isFalse (fun hh => h (by injection hh))
  | Json.arr _, Json.obj _ => isFalse (fun h => Json.noConfusion h)
  | Json.obj _, Json.null => isFalse (fun h => Json.noConfusion h)
  | Json.obj _, Json.bool _ => isFalse (fun h => Json.noConfusion h)
  | Json.obj _, Json.num _ => isFalse (fun h => Json.noConfusion h)
  | Json.obj _, Json.str _ => isFalse (fun h => Json.noConfusion h)
  | Json.obj _, Json.arr _ => isFalse (fun h => Json.noConfusion h)
  | Json.obj xs, Json.obj ys =>
    match jsonFieldsDecEq xs ys with
    | isTrue h => isTrue (by rw [h])
    | isFalse h => isFalse (fun hh => h (by injection hh))

def jsonListDecEq : (xs ys : List Json) → Decidable (xs = ys)
  | [], [] => isTrue rfl
  | [], _ :: _ => isFalse (fun h => List.noConfusion h)
  | _ :: _, [] => isFalse (fun h => List.noConfusion h)
  | x :: xs, y :: ys =>
    match jsonDecEq x y, jsonListDecEq xs ys with
    | isTrue h1, isTrue h2 => isTrue (by rw [h1, h2])
    | isFalse h1, _ => isFalse (fun hh => h1 (by injection hh))
    | _, isFalse h2 => isFalse (fun hh => h2 (by injection hh))

def jsonFieldsDecEq : (xs ys : List (String × Json)) → Decidable (xs = ys)
  | [], [] => isTrue rfl
  | [], _ :: _ => isFalse (fun h => List.noConfusion h)
  | _ :: _, [] => isFalse (fun h => List.noConfusion h)
  | (k1, v1) :: xs, (k2, v2) :: ys =>
    match String.decEq k1 k2, jsonDecEq v1 v2, jsonFieldsDecEq xs ys with
    | isTrue h1, isTrue h2, isTrue h3 => isTrue (by rw [h1, h2, h3])
    | isFalse h1, _, _ =>
      isFalse (fun hh => by
        injection hh with hp ht
        exact h1 (congrArg Prod.fst hp))
    | _, isFalse h2, _ =>
      isFalse (fun hh => by
        injection hh with hp ht
        exact h2 (congrArg Prod.snd hp))
    | _, _, isFalse h3 =>
      isFalse (fun hh => by
        injection hh with hp ht
        exact h3 ht)
end

instance : DecidableEq Json := jsonDecEq

/-- Property lookup on the field list of a parsed JSON object.  JSON.parse
keeps the LAST occurrence of a duplicated key, hence the recursion looks at
the tail first. -/
def getField (fields : List (String × Json)) (key : String) : Option Json :=
  match fields with
  | [] => none
  | (k, v) :: rest =>
    match getField rest key with
    | some r => some r
    | none => if k == key then some v else none

/-- JavaScript member access v.key for the (non-index) keys used by the
source; on every non-object it yields no value (undefined, or a TypeError on
null, both of which send the source down its fallback path). -/
def jsMember (j : Json) (key : String) : Option Json :=
  match j with
  | Json.obj fields => getField fields key
  | _ => none

/-- Whether a JSON number lexeme denotes zero: every digit of the mantissa is
0 (the exponent cannot make a non-zero mantissa zero). -/
def numIsZero (lexeme : String) : Bool :=
  ((lexeme.data.takeWhile (fun c => !(c == 'e' || c == 'E'))).filter
    (fun c => !(c == '-' || c == '.'))).all (fun c => c == '0')

/-- JavaScript truthiness of a parsed JSON value. -/
def jsTruthy : Json → Bool
  | Json.null => false
  | Json.bool b => b
  | Json.num lexeme => !(numIsZero lexeme)
  | Json.str s => !(s == "")
  | Json.arr _ => true
  | Json.obj _ => true

mutual
/-- JavaScript String(v) for parsed JSON values: strings pass through, arrays
stringify as join(","), plain objects as "[object Object]".  For numbers the
source lexeme stands in for the (irrelevant here) double formatting. -/
def jsToString : Json → String
  | Json.null => "null"
  | Json.bool b => if b then "true" else "false"
  | Json.num lexeme => lexeme
  | Json.str s => s
  | Json.arr elements => jsJoin "," elements
  | Json.obj _ => "[object Object]"

/-- Array.prototype.join: null (and undefined) become the empty string, every
other element is converted with String(v). -/
def jsJoin (sep : String) : List Json → String
  | [] => ""
  | [Json.null] => ""
  | [e] => jsToString e
  | Json.null :: es => sep ++ jsJoin sep es
  | e :: es => jsToString e ++ sep ++ jsJoin sep es
end

/-- The whitespace set recognised by both JSON.parse (between tokens) and,
to the extent relevant, String.prototype.trim. -/
def isJsSpace (c : Char) : Bool :=
  c == ' ' || c == '\t' || c == '\n' || c == '\r'

def trimCharsLeft : List Char → List Char
  | [] => []
  | c :: cs => if isJsSpace c then trimCharsLeft cs else c :: cs

/-- String.prototype.trim. -/
def jsTrim (s : String) : String :=
  ⟨(trimCharsLeft (trimCharsLeft s.data).reverse).reverse⟩

def skipWs : List Char → List Char
  | [] => []
  | c :: cs => if isJsSpace c then skipWs cs else c :: cs

def hexVal (c : Char) : Option Nat :=
  if '0' ≤ c ∧ c ≤ '9' then some (c.toNat - '0'.toNat)
  else if 'a' ≤ c ∧ c ≤ 'f' then some (c.toNat - 'a'.toNat + 10)
  else if 'A' ≤ c ∧ c ≤ 'F' then some (c.toNat - 'A'.toNat + 10)
  else none

/-- The single-character escapes of the JSON grammar: quote, backslash and
slash stand for themselves, b f n r t for backspace, form feed, newline,
carriage return and tab. -/
def escChar : Char → Option Char
  | '"' => some '"'
  | '\\' => some '\\'
  | '/' => some '/'
  | 'b' => some (Char.ofNat 8)
  | 'f' => some (Char.ofNat 12)
  | 'n' => some '\n'
  | 'r' => some '\r'
  | 't' => some '\t'
  | _ => none

/-- Reads the four hex digits of a unicode escape (the backslash and the u
have already been consumed). -/
def readUnicodeEscape : List Char → Option (Nat × List Char)
  | h1 :: h2 :: h3 :: h4 :: rest =>
    match hexVal h1, hexVal h2, hexVal h3, hexVal h4 with
    | some a, some b, some c, some d => some (((a * 16 + b) * 16 + c) * 16 + d, rest)
    | _, _, _, _ => none
  | _ => none

def isHighSurrogate (code : Nat) : Bool := 0xD800 ≤ code && code ≤ 0xDBFF
def isLowSurrogate (code : Nat) : Bool := 0xDC00 ≤ code && code ≤ 0xDFFF

/-- Parses the body of a JSON string literal (after the opening quote),
returning the decoded characters and the input after the closing quote.
Surrogate pairs written as two unicode escapes combine into one character; a
lone surrogate escape, unrepresentable in a Lean string, becomes U+FFFD.
Unescaped control characters are rejected, as JSON.parse rejects them.
Fuel is the remaining input length. -/
def parseStringBody : Nat → List Char → Option (List Char × List Char)
  | 0, _ => none
  | _, [] => none
  | fuel + 1, c :: cs =>
    if c == '"' then some ([], cs)
    else if c == '\\' then
      match cs with
      | [] => none
      | 'u' :: us =>
        match readUnicodeEscape us with
        | none => none
        | some (code, rest) =>
          if isHighSurrogate code then
            match rest with
            | '\\' :: 'u' :: us2 =>
              match readUnicodeEscape us2 with
              | some (low, rest2) =>
                if isLowSurrogate low then
                  (parseStringBody fuel rest2).map
                    (fun p => (Char.ofNat (0x10000 + (code - 0xD800) * 0x400 + (low - 0xDC00)) :: p.1, p.2))
                else (parseStringBody fuel rest).map (fun p => (Char.ofNat 0xFFFD :: p.1, p.2))
              | none => (parseStringBody fuel rest).map (fun p => (Char.ofNat 0xFFFD :: p.1, p.2))
            | _ => (parseStringBody fuel rest).map (fun p => (Char.ofNat 0xFFFD :: p.1, p.2))
          else if isLowSurrogate code then
            (parseStringBody fuel rest).map (fun p => (Char.ofNat 0xFFFD :: p.1, p.2))
          else
            (parseStringBody fuel rest).map (fun p => (Char.ofNat code :: p.1, p.2))
      | e :: rest =>
        match escChar e with
        | some ec => (parseStringBody fuel rest).map (fun p => (ec :: p.1, p.2))
        | none => none
    else if c.toNat < 0x20 then none
    else (parseStringBody fuel cs).map (fun p => (c :: p.1, p.2))

def isDigitChar (c : Char) : Bool := '0' ≤ c && c ≤ '9'

def takeDigits : List Char → List Char × List Char
  | [] => ([], [])
  | c :: cs =>
    if isDigitChar c then
      let p := takeDigits cs
      (c :: p.1, p.2)
    else ([], c :: cs)

/-- Optional exponent part of a JSON number. -/
def parseExpPart (acc : List Char) (cs : List Char) : Option (String × List Char) :=
  match cs with
  | [] => some (⟨acc⟩, [])
  | e :: rest =>
    if e == 'e' || e == 'E' then
      let sr : List Char × List Char :=
        match rest with
        | '+' :: r => (['+'], r)
        | '-' :: r => (['-'], r)
        | _ => ([], rest)
      match takeDigits sr.2 with
      | ([], _) => none
      | (ds, rest3) => some (⟨acc ++ e :: (sr.1 ++ ds)⟩, rest3)
    else some (⟨acc⟩, cs)

/-- Optional fraction part of a JSON number, then the exponent. -/
def parseFracPart (acc : List Char) (cs : List Char) : Option (String × List Char) :=
  match cs with
  | '.' :: rest =>
    match takeDigits rest with
    | ([], _) => none
    | (ds, rest2) => parseExpPart (acc ++ '.' :: ds) rest2
  | _ => parseExpPart acc cs

/-- A JSON number lexeme: -?(0|[1-9][0-9]*)(.[0-9]+)?([eE][+-]?[0-9]+)? -/
def parseNumber (cs : List Char) : Option (String × List Char) :=
  let mr : List Char × List Char :=
    match cs with
    | '-' :: rest => (['-'], rest)
    | _ => ([], cs)
  match mr.2 with
  | [] => none
  | c :: rest =>
    if c == '0' then parseFracPart (mr.1 ++ ['0']) rest
    else if '1' ≤ c ∧ c ≤ '9' then
      let p := takeDigits rest
      parseFracPart (mr.1 ++ c :: p.1) p.2
    else none

mutual
/-- One JSON value starting at the (whitespace-skipped) head of the input;
returns the remaining input.  Fuel strictly decreases on every call. -/
def parseValueAux : Nat → List Char → Option (Json × List Char)
  | 0, _ => none
  | fuel + 1, cs =>
    match skipWs cs with
    | [] => none
    | '\x7b' :: rest => parseObjAux fuel rest
    | '[' :: rest => parseArrAux fuel rest
    | '"' :: rest =>
      (parseStringBody (rest.length + 1) rest).map (fun p => (Json.str ⟨p.1⟩, p.2))
    | 't' :: 'r' :: 'u' :: 'e' :: rest => some (Json.bool true, rest)
    | 'f' :: 'a' :: 'l' :: 's' :: 'e' :: rest => some (Json.bool false, rest)
    | 'n' :: 'u' :: 'l' :: 'l' :: rest => some (Json.null, rest)
    | other => (parseNumber other).map (fun p => (Json.num p.1, p.2))

/-- Object body, entered just after the opening brace. -/
def parseObjAux : Nat → List Char → Option (Json × List Char)
  | 0, _ => none
  | fuel + 1, cs =>
    match skipWs cs with
    | '\x7d' :: rest => some (Json.obj [], rest)
    | other => (parseObjMembers fuel other).map (fun p => (Json.obj p.1, p.2))

/-- One or more comma-separated members followed by the closing brace. -/
def parseObjMembers : Nat → List Char → Option (List (String × Json) × List Char)
  | 0, _ => none
  | fuel + 1, cs =>
    match skipWs cs with
    | '"' :: rest =>
      match parseStringBody (rest.length + 1) rest with
      | none => none
      | some (key, r1) =>
        match skipWs r1 with
        | ':' :: r2 =>
          match parseValueAux fuel r2 with
          | none => none
          | some (v, r3) =>
            match skipWs r3 with
            | ',' :: r4 => (parseObjMembers fuel r4).map (fun p => ((⟨key⟩, v) :: p.1, p.2))
            | '\x7d' :: r4 => some ([(⟨key⟩, v)], r4)
            | _ => none
        | _ => none
    | _ => none

/-- Array body, entered just after the opening bracket. -/
def parseArrAux : Nat → List Char → Option (Json × List Char)
  | 0, _ => none
  | fuel + 1, cs =>
    match skipWs cs with
    | ']' :: rest => some (Json.arr [], rest)
    | other => (parseArrElems fuel other).map (fun p => (Json.arr p.1, p.2))

/-- One or more comma-separated elements followed by the closing bracket. -/
def parseArrElems : Nat → List Char → Option (List Json × List Char)
  | 0, _ => none
  | fuel + 1, cs =>
    match parseValueAux fuel cs with
    | none => none
    | some (v, r1) =>
      match skipWs r1 with
      | ',' :: r2 => (parseArrElems fuel r2).map (fun p => (v :: p.1, p.2))
      | ']' :: r2 => some ([v], r2)
      | _ => none
end

/-- JSON.parse: a single JSON value must span the whole input up to trailing
whitespace, otherwise parsing fails.  The fuel bound is generous: every few
recursive steps consume at least one input character. -/
def jsonParse (s : String) : Option Json :=
  match parseValueAux (8 * (s.data.length + 2)) s.data with
  | some (j, rest) => if (skipWs rest).isEmpty then some j else none
  | none => none

/-! ## lib/openai.ts -/

/-- The StructuredContent record of lib/openai.ts.  The source casts the raw
parse result, so caption and the hashtag elements carry through whatever JSON
values the provider produced; fullText is always the freshly built string. -/
structure StructuredContent where
  caption : Json
  hashtags : List Json
  fullText : String
deriving DecidableEq

/-- Lines 61-81 of lib/openai.ts: JSON.parse the trimmed provider text, check
that caption is truthy and hashtags is an array (member access on a non-object
yields no value, and on null throws, both caught by the same catch), build
fullText from the template literal and join(" "); on any failure of this the
fallback treats the whole trimmed text as the caption. -/
def parseProviderContent (content : String) : StructuredContent :=
  let trimmed := jsTrim content
  match jsonParse trimmed with
  | some parsed =>
    match jsMember parsed "caption", jsMember parsed "hashtags" with
    | some cap, some (Json.arr hashtags) =>
      if jsTruthy cap then
        { caption := cap, hashtags := hashtags,
          fullText := jsToString cap ++ "\n\n" ++ jsJoin " " hashtags }
      else ⟨Json.str trimmed, [], trimmed⟩
    | _, _ => ⟨Json.str trimmed, [], trimmed⟩
  | none => ⟨Json.str trimmed, [], trimmed⟩

/-- The outcome of the chat-completions call made by
generateSocialMediaContent: either the API answered (with a possibly absent
message content), or it threw an OpenAI.APIError with a status, or some other
Error, or a non-Error value. -/
inductive ProviderResult where
  | message (content : Option String)
  | apiError (status : Nat) (errMessage : String)
  | errorThrown (errMessage : String)
  | nonErrorThrown
deriving DecidableEq

/-- generateSocialMediaContent of lib/openai.ts, as a function of the
provider-call outcome.  Except.error carries the message of the Error the
function throws. -/
def generateSocialMediaContent (res : ProviderResult) : Except String StructuredContent :=
  match res with
  | ProviderResult.message none => Except.error "No content generated from OpenAI"
  | ProviderResult.message (some s) =>
    if s == "" then Except.error "No content generated from OpenAI"
    else Except.ok (parseProviderContent s)
  | ProviderResult.apiError status msg =>
    if status == 429 then Except.error "Rate limit exceeded. Please try again in a moment."
    else Except.error ("OpenAI API error: " ++ msg)
  | ProviderResult.errorThrown msg => Except.error msg
  | ProviderResult.nonErrorThrown => Except.error "An unexpected error occurred while generating content"

/-! ## app/api/generate/route.ts -/

/-- The request body of POST /api/generate after shape checking. -/
structure GenerateRequest where
  prompt : String
  platform : Option String
  userId : Option String
deriving DecidableEq

structure ZodIssue where
  message : String
deriving DecidableEq

/-- generateSchema: prompt must be a non-empty string of at most 1000
characters (platform and userId are optional strings, enforced by the types
here).  Returns the list of field-level issues, empty when validation
passes. -/
def generateSchemaCheck (body : GenerateRequest) : List ZodIssue :=
  (if body.prompt.length < 1 then [ZodIssue.mk "Prompt is required"] else []) ++
  (if body.prompt.length > 1000 then [ZodIssue.mk "Prompt is too long"] else [])

/-- JavaScript x || null for an optional string. -/
def orNull (s : Option String) : Option String :=
  match s with
  | some v => if v == "" then none else some v
  | none => none

/-- A row of the GeneratedPost table as the generate handler actually writes
it: the content column receives the entire StructuredContent value returned
by generateSocialMediaContent (the handler never projects fullText out of
it). -/
structure GeneratedPostRow where
  id : Nat
  prompt : String
  content : StructuredContent
  platform : Option String
  userId : Option String
  createdAt : Nat
deriving DecidableEq

/-- The Prisma client state: an id counter, the insertion clock, and the rows
of the GeneratedPost table. -/
structure PrismaState where
  nextId : Nat
  now : Nat
  rows : List GeneratedPostRow
deriving DecidableEq

/-- prisma.generatedPost.create: assigns the id and createdAt and appends the
row. -/
def generatedPostCreate (st : PrismaState) (prompt : String) (content : StructuredContent)
    (platform userId : Option String) : GeneratedPostRow × PrismaState :=
  let row : GeneratedPostRow := ⟨st.nextId, prompt, content, platform, userId, st.now⟩
  (row, ⟨st.nextId + 1, st.now, st.rows ++ [row]⟩)

/-- How the persistence backend behaves during one request: it works, or it
throws a PrismaClientInitializationError (connection cannot be established),
or it throws some other Error. -/
inductive DbBehavior where
  | available
  | connectionFailure (errMessage : String)
  | queryFailure (errMessage : String)
deriving DecidableEq

/-- JavaScript hay.includes(needle). -/
def strIncludes (hay needle : String) : Bool :=
  hay.data.tails.any (fun t => needle.data.isPrefixOf t)

/-- The 503 body both route handlers build for a
PrismaClientInitializationError (the two sources are identical here):
a fixed error and message, and a details string that is the underlying
error message only when NODE_ENV is development. -/
def dbConnectionFailedBody (env errMessage : String) : Json :=
  Json.obj [
    ("success", Json.bool false),
    ("error", Json.str "Database connection failed"),
    ("message", Json.str "Please check your DATABASE_URL in the .env file. Make sure your database is running and the credentials are correct."),
    ("details", Json.str (if env == "development" then errMessage
      else "Database connection error. Check your configuration."))]

def zodIssuesToJson (issues : List ZodIssue) : Json :=
  Json.arr (issues.map (fun i => Json.obj [("message", Json.str i.message)]))

def optionStrToJson (s : Option String) : Json :=
  match s with
  | some v => Json.str v
  | none => Json.null

/-- JSON serialization of a StructuredContent value (what NextResponse.json
produces for the stored content object). -/
def StructuredContent.toJsonValue (sc : StructuredContent) : Json :=
  Json.obj [("caption", sc.caption), ("hashtags", Json.arr sc.hashtags),
    ("fullText", Json.str sc.fullText)]

/-- The observable outcome of one POST /api/generate request: HTTP status,
JSON body, the database state afterwards, and whether the external provider
was invoked. -/
structure GenerateHandlerResult where
  status : Nat
  body : Json
  db : PrismaState
  providerCalled : Bool
deriving DecidableEq

/-- The POST handler of app/api/generate/route.ts.  Validation runs first
(a ZodError becomes a 400 before the provider is called); then the provider
call; a thrown Error whose message contains "Rate limit" becomes a 429, a
PrismaClientInitializationError a 503, any other Error a 500; on success the
handler stores prompt, the generateSocialMediaContent result as content,
platform || null and userId || null, and answers 200 with id, prompt,
content, platform and createdAt of the stored row. -/
def POSTgenerate (body : GenerateRequest) (provider : ProviderResult)
    (db : DbBehavior) (env : String) (st : PrismaState) : GenerateHandlerResult :=
  match generateSchemaCheck body with
  | issue :: more =>
    ⟨400, Json.obj [("success", Json.bool false), ("error", Json.str "Validation error"),
      ("details", zodIssuesToJson (issue :: more))], st, false⟩
  | [] =>
    match generateSocialMediaContent provider with
    | Except.error msg =>
      if strIncludes msg "Rate limit" then
        ⟨429, Json.obj [("success", Json.bool false), ("error", Json.str msg)], st, true⟩
      else
        ⟨500, Json.obj [("success", Json.bool false),
          ("error", Json.str (if msg == "" then "Failed to generate content" else msg))], st, true⟩
    | Except.ok content =>
      match db with
      | DbBehavior.connectionFailure m => ⟨503, dbConnectionFailedBody env m, st, true⟩
      | DbBehavior.queryFailure m =>
        if strIncludes m "Rate limit" then
          ⟨429, Json.obj [("success", Json.bool false), ("error", Json.str m)], st, true⟩
        else
          ⟨500, Json.obj [("success", Json.bool false),
            ("error", Json.str (if m == "" then "Failed to generate content" else m))], st, true⟩
      | DbBehavior.available =>
        let rs := generatedPostCreate st body.prompt content (orNull body.platform) (orNull body.userId)
        ⟨200, Json.obj [("success", Json.bool true),
          ("data", Json.obj [
            ("id", Json.str (Nat.repr rs.1.id)),
            ("prompt", Json.str rs.1.prompt),
            ("content", StructuredContent.toJsonValue rs.1.content),
            ("platform", optionStrToJson rs.1.platform),
            ("createdAt", Json.str (Nat.repr rs.1.createdAt))])], rs.2, true⟩

/-! ## app/api/posts/route.ts -/

/-- A row of the GeneratedPost table as the listing route reads it (the
schema shape: content is the stored text column). -/
structure Post where
  id : Nat
  prompt : String
  content : String
  platform : Option String
  userId : Option String
  createdAt : Nat
deriving DecidableEq

/-- The where argument the route passes to findMany and count:
userId ? \x7b userId \x7d : undefined — the filter exists only when the
query-string value is present and non-empty (truthy). -/
def whereUserId (userIdParam : Option String) : Option String :=
  match userIdParam with
  | some u => if u == "" then none else some u
  | none => none

/-- Whether a row matches the where clause: a present filter requires column
equality (a null userId column never equals a string). -/
def matchesWhere (w : Option String) (p : Post) : Bool :=
  match w with
  | some u => p.userId == some u
  | none => true

/-- Insertion step of the orderBy createdAt desc sort. -/
def insertByCreatedAtDesc (p : Post) : List Post → List Post
  | [] => [p]
  | q :: qs =>
    if p.createdAt ≤ q.createdAt then q :: insertByCreatedAtDesc p qs
    else p :: q :: qs

/-- orderBy: \x7b createdAt: 'desc' \x7d — a deterministic descending sort of
the matching rows. -/
def sortByCreatedAtDesc : List Post → List Post
  | [] => []
  | p :: ps => insertByCreatedAtDesc p (sortByCreatedAtDesc ps)

/-- prisma.generatedPost.findMany with where/orderBy/take/skip: sort the
matching rows descending by createdAt, skip `skipN` of them, return at most
`takeN`. -/
def findManyPosts (rows : List Post) (w : Option String) (takeN skipN : Nat) : List Post :=
  ((sortByCreatedAtDesc (rows.filter (matchesWhere w))).drop skipN).take takeN

/-- prisma.generatedPost.count with the same where clause. -/
def countPosts (rows : List Post) (w : Option String) : Nat :=
  (rows.filter (matchesWhere w)).length

/-- The select clause of the route: id, prompt, content, platform, createdAt
(and not userId), serialized into the response. -/
def postToJson (p : Post) : Json :=
  Json.obj [("id", Json.str (Nat.repr p.id)), ("prompt", Json.str p.prompt),
    ("content", Json.str p.content), ("platform", optionStrToJson p.platform),
    ("createdAt", Json.str (Nat.repr p.createdAt))]

/-- The GET handler of app/api/posts/route.ts: on a
PrismaClientInitializationError a 503 with the shared connection-failure
body, on any other thrown Error a 500, otherwise a 200 carrying the selected
page and the pagination block with total, limit, offset and
hasMore = offset + limit < total. -/
def GETposts (userIdParam : Option String) (limit offset : Nat)
    (db : DbBehavior) (env : String) (rows : List Post) : Nat × Json :=
  match db with
  | DbBehavior.connectionFailure m => (503, dbConnectionFailedBody env m)
  | DbBehavior.queryFailure m =>
    (500, Json.obj [("success", Json.bool false),
      ("error", Json.str "Failed to fetch posts"), ("message", Json.str m)])
  | DbBehavior.available =>
    let w := whereUserId userIdParam
    let posts := findManyPosts rows w limit offset
    let total := countPosts rows w
    (200, Json.obj [("success", Json.bool true),
      ("data", Json.arr (posts.map postToJson)),
      ("pagination", Json.obj [
        ("total", Json.num (Nat.repr total)),
        ("limit", Json.num (Nat.repr limit)),
        ("offset", Json.num (Nat.repr offset)),
        ("hasMore", Json.bool (decide (offset + limit < total)))])])

/-! ## Concrete stores used by the witnesses and examples -/

/-- Fifteen rows with pairwise distinct timestamps. -/
def demoRows15 : List Post :=
  (List.range 15).map (fun i => ⟨i, "p", "c", none, none, i⟩)

/-- A small store mixing userId values "u1", "u2" and null. -/
def demoMixedRows : List Post :=
  [⟨1, "a", "c1", none, some "u1", 3⟩,
   ⟨2, "b", "c2", none, some "u2", 2⟩,
   ⟨3, "c", "c3", none, none, 1⟩,
   ⟨4, "d", "c4", none, some "u1", 0⟩]

/-- The first post of the page served for userId "u1" over demoMixedRows. -/
def demoPostU1 : Post := ⟨1, "a", "c1", none, some "u1", 3⟩

/-! ## Helper lemmas -/

/-- Joining plain strings with one space between consecutive elements (the
wording of the specification). -/
def joinSpaces : List String → String
  | [] => ""
  | [s] => s
  | s :: ss => s ++ " " ++ joinSpaces ss

/-- On an array whose elements are all strings, the modelled
Array.prototype.join(" ") is exactly the space-separated concatenation. -/
theorem jsJoin_map_str (ss : List String) :
    jsJoin " " (ss.map Json.str) = joinSpaces ss := by
  induction ss with
  | nil => rfl
  | cons s ss ih =>
    cases ss with
    | nil => rfl
    | cons t ts =>
      simp only [List.map] at ih ⊢
      have h1 : jsJoin " " (Json.str s :: Json.str t :: ts.map Json.str) =
          s ++ " " ++ jsJoin " " (Json.str t :: ts.map Json.str) := rfl
      have h2 : joinSpaces (s :: t :: ts) = s ++ " " ++ joinSpaces (t :: ts) := rfl
      rw [h1, h2, ih]

/-- The descending ordering the listing route sorts by. -/
def createdAtGe (a b : Post) : Prop := b.createdAt ≤ a.createdAt

theorem insertByCreatedAtDesc_perm (p : Post) (l : List Post) :
    (insertByCreatedAtDesc p l).Perm (p :: l) := by
  induction l with
  | nil => exact List.Perm.refl _
  | cons q qs ih =>
    rw [insertByCreatedAtDesc]
    by_cases h : p.createdAt ≤ q.createdAt
    · rw [if_pos h]
      exact (List.Perm.cons q ih).trans (List.Perm.swap p q qs)
    · rw [if_neg h]

theorem sortByCreatedAtDesc_perm (l : List Post) :
    (sortByCreatedAtDesc l).Perm l := by
  induction l with
  | nil => exact List.Perm.refl _
  | cons p ps ih =>
    exact (insertByCreatedAtDesc_perm p (sortByCreatedAtDesc ps)).trans (List.Perm.cons p ih)

theorem insertByCreatedAtDesc_pairwise (p : Post) (l : List Post)
    (hl : l.Pairwise createdAtGe) :
    (insertByCreatedAtDesc p l).Pairwise createdAtGe := by
  induction l with
  | nil =>
    rw [insertByCreatedAtDesc]
    exact List.pairwise_singleton _ _
  | cons q qs ih =>
    rcases List.pairwise_cons.mp hl with ⟨hq, hqs⟩
    rw [insertByCreatedAtDesc]
    by_cases h : p.createdAt ≤ q.createdAt
    · rw [if_pos h]
      refine List.pairwise_cons.mpr ⟨?_, ih hqs⟩
      intro x hx
      rcases List.mem_cons.mp ((insertByCreatedAtDesc_perm p qs).mem_iff.mp hx) with hxp | hxq
      · subst hxp; exact h
      · exact hq x hxq
    · rw [if_neg h]
      refine List.pairwise_cons.mpr ⟨?_, hl⟩
      intro x hx
      rcases List.mem_cons.mp hx with hxq | hxq
      · subst hxq; exact Nat.le_of_lt (Nat.lt_of_not_le h)
      · exact Nat.le_trans (hq x hxq) (Nat.le_of_lt (Nat.lt_of_not_le h))

theorem sortByCreatedAtDesc_pairwise (l : List Post) :
    (sortByCreatedAtDesc l).Pairwise createdAtGe := by
  induction l with
  | nil => exact List.Pairwise.nil
  | cons p ps ih => exact insertByCreatedAtDesc_pairwise p _ ih

theorem parseProviderContent_spec (raw : String) (fields : List (String × Json))
    (cap : Json) (hs : List Json)
    (hparse : jsonParse (jsTrim raw) = some (Json.obj fields))
    (hcap : getField fields "caption" = some cap)
    (htags : getField fields "hashtags" = some (Json.arr hs))
    (htr : jsTruthy cap = true) :
    parseProviderContent raw = ⟨cap, hs, jsToString cap ++ "\n\n" ++ jsJoin " " hs⟩ := by
  have hcap2 : jsMember (Json.obj fields) "caption" = some cap := hcap
  have htags2 : jsMember (Json.obj fields) "hashtags" = some (Json.arr hs) := htags
  simp only [parseProviderContent, hparse, hcap2, htags2, htr, if_true]

theorem jsonParse_empty : jsonParse "" = none := rfl

theorem ne_empty_beq_false {s : String} (h : s ≠ "") : (s == "") = false := by
  rcases hb : s == "" with _ | _
  · rfl
  · exact absurd (beq_iff_eq.mp hb) h

/-- Array.isArray applied to the result of a member lookup (an absent member,
i.e. undefined, is not an array). -/
def isArrayOpt : Option Json → Bool
  | some (Json.arr _) => true
  | _ => false

/-! ## The claims -/

/-- Claim C1: for every provider response string that parses as a JSON object
with a non-empty string field caption and an array field hashtags (here of
strings, the shape the provider is instructed to produce), the
content-generation function returns a StructuredContent whose caption and
hashtags equal the parsed fields and whose fullText is the caption, a blank
line, and the hashtags joined by single spaces. -/
theorem generate_content_structured_ok (raw cap : String)
    (fields : List (String × Json)) (ss : List String)
    (hparse : jsonParse (jsTrim raw) = some (Json.obj fields))
    (hcap : getField fields "caption" = some (Json.str cap))
    (hne : cap ≠ "")
    (htags : getField fields "hashtags" = some (Json.arr (ss.map Json.str))) :
    generateSocialMediaContent (ProviderResult.message (some raw)) =
      Except.ok ⟨Json.str cap, ss.map Json.str, cap ++ "\n\n" ++ joinSpaces ss⟩ := by
  have hraw : (raw == "") = false := by
    apply ne_empty_beq_false
    intro h0
    rw [h0, show jsTrim "" = "" from rfl, jsonParse_empty] at hparse
    cases hparse
  have htr : jsTruthy (Json.str cap) = true := by
    show (!(cap == "")) = true
    rw [ne_empty_beq_false hne]
    rfl
  have hmain := parseProviderContent_spec raw fields (Json.str cap) (ss.map Json.str)
    hparse hcap htags htr
  have hgen : generateSocialMediaContent (ProviderResult.message (some raw)) =
      if raw == "" then Except.error "No content generated from OpenAI"
      else Except.ok (parseProviderContent raw) := rfl
  rw [hgen, if_neg (by rw [hraw]; exact Bool.false_ne_true)]
  rw [hmain, jsJoin_map_str ss]
  rfl

/-- The JSON object of the specification example for C1. -/
def demoProviderJson : String := "\x7b\"caption\": \"Hello\", \"hashtags\": [\"#a\", \"#b\"]\x7d"

/-- Witness for C1 at the example of the specification: the provider answers
with a caption Hello and hashtags #a and #b, and the resulting fullText is
exactly the claimed string. -/
theorem generate_content_structured_ok_witness :
    generateSocialMediaContent (ProviderResult.message (some demoProviderJson)) =
      Except.ok ⟨Json.str "Hello", [Json.str "#a", Json.str "#b"], "Hello\n\n#a #b"⟩ := by
  have h := generate_content_structured_ok demoProviderJson "Hello"
    [("caption", Json.str "Hello"), ("hashtags", Json.arr [Json.str "#a", Json.str "#b"])]
    ["#a", "#b"] (by decide) (by decide) (by decide) (by decide)
  exact h.trans rfl

/-- Claim C2: for every non-empty provider response that fails to parse as
JSON, or parses to an object without a caption member, or parses to an object
whose hashtags member is not an array, the content-generation function raises
nothing and returns the fallback: the trimmed raw text as caption, no
hashtags, and the same trimmed text as fullText. -/
theorem generate_content_fallback (raw : String) (hne : raw ≠ "")
    (hcases : jsonParse (jsTrim raw) = none
      ∨ (∃ fields, jsonParse (jsTrim raw) = some (Json.obj fields) ∧
          getField fields "caption" = none)
      ∨ (∃ fields, jsonParse (jsTrim raw) = some (Json.obj fields) ∧
          isArrayOpt (getField fields "hashtags") = false)) :
    generateSocialMediaContent (ProviderResult.message (some raw)) =
      Except.ok ⟨Json.str (jsTrim raw), [], jsTrim raw⟩ := by
  have hgen : generateSocialMediaContent (ProviderResult.message (some raw)) =
      if raw == "" then Except.error "No content generated from OpenAI"
      else Except.ok (parseProviderContent raw) := rfl
  rw [hgen, if_neg (by rw [ne_empty_beq_false hne]; exact Bool.false_ne_true)]
  refine congrArg Except.ok ?_
  rcases hcases with hnone | ⟨fields, hparse, hcap⟩ | ⟨fields, hparse, htags⟩
  · simp only [parseProviderContent, hnone]
  · have hcap2 : jsMember (Json.obj fields) "caption" = none := hcap
    simp only [parseProviderContent, hparse, hcap2]
  · have hcapEq : jsMember (Json.obj fields) "caption" = getField fields "caption" := rfl
    have htagsEq : jsMember (Json.obj fields) "hashtags" = getField fields "hashtags" := rfl
    rcases hc : getField fields "caption" with _ | cap
    · simp only [parseProviderContent, hparse, hcapEq, hc]
    · rcases hh : getField fields "hashtags" with _ | j
      · simp only [parseProviderContent, hparse, hcapEq, htagsEq, hc, hh]
      · cases j with
        | arr es =>
          rw [hh] at htags
          exact absurd htags (by simp [isArrayOpt])
        | null => simp only [parseProviderContent, hparse, hcapEq, htagsEq, hc, hh]
        | bool b => simp only [parseProviderContent, hparse, hcapEq, htagsEq, hc, hh]
        | num lex => simp only [parseProviderContent, hparse, hcapEq, htagsEq, hc, hh]
        | str s => simp only [parseProviderContent, hparse, hcapEq, htagsEq, hc, hh]
        | obj fs => simp only [parseProviderContent, hparse, hcapEq, htagsEq, hc, hh]

/-- Witness for C2 at the plain-text example of the specification: the
provider ignores the JSON instruction, no error is raised, the whole text
becomes caption and content, and hashtags is empty. -/
theorem generate_content_fallback_witness :
    generateSocialMediaContent (ProviderResult.message (some "Just some text")) =
      Except.ok ⟨Json.str "Just some text", [], "Just some text"⟩ := by
  have h := generate_content_fallback "Just some text" (by decide) (Or.inl (by decide))
  exact h.trans rfl

/-- The result of a concrete successful generation request: prompt
"Hello topic", provider answering the C1 example object, working store that
starts empty with id counter 1 and clock 100. -/
def demoGenerateResult : GenerateHandlerResult :=
  POSTgenerate ⟨"Hello topic", none, none⟩ (ProviderResult.message (some demoProviderJson))
    DbBehavior.available "development" ⟨1, 100, []⟩

/-- Claim C3 is violated by the code: at a concrete successful generation
request the handler hands the ENTIRE StructuredContent value (caption,
hashtags, fullText) to the create call as the content column — the prompt,
platform and userId columns are as claimed, but content is not the fullText
string "Hello\n\n#a #b"; it is the record that merely contains it (against
the String type of the content column in the Prisma schema). -/
theorem generate_persists_structured_object :
    demoGenerateResult.status = 200
    ∧ demoGenerateResult.db.rows =
      [⟨1, "Hello topic",
        ⟨Json.str "Hello", [Json.str "#a", Json.str "#b"], "Hello\n\n#a #b"⟩,
        none, none, 100⟩] := by
  exact ⟨by decide, by decide⟩

/-- The data object of the 200 response for demoGenerateResult, exactly as
the route builds it. -/
def demoGenerateDataFields : List (String × Json) :=
  [("id", Json.str "1"), ("prompt", Json.str "Hello topic"),
   ("content", StructuredContent.toJsonValue
     ⟨Json.str "Hello", [Json.str "#a", Json.str "#b"], "Hello\n\n#a #b"⟩),
   ("platform", Json.null), ("createdAt", Json.str "100")]

/-- Claim C4 is violated by the code: the 200 response of the same concrete
successful request carries success true and a data object with id, prompt,
content, platform and createdAt — but the data object has NO structuredContent
member at all (and its content member is the serialized object, not a plain
string). -/
theorem generate_response_without_structured :
    demoGenerateResult.status = 200
    ∧ jsMember demoGenerateResult.body "success" = some (Json.bool true)
    ∧ jsMember demoGenerateResult.body "data" = some (Json.obj demoGenerateDataFields)
    ∧ getField demoGenerateDataFields "structuredContent" = none := by
  exact ⟨by decide, by decide, by decide, by decide⟩

/-- Claim C5: every prompt of length 1 to 1000 passes validation; the empty
prompt or one longer than 1000 characters makes the handler answer 400 with
the validation-error body and field-level details, without invoking the
provider and without touching the store. -/
theorem generate_validation_bounds (body : GenerateRequest) (provider : ProviderResult)
    (db : DbBehavior) (env : String) (st : PrismaState) :
    (1 ≤ body.prompt.length ∧ body.prompt.length ≤ 1000 → generateSchemaCheck body = [])
    ∧ (body.prompt.length = 0 ∨ 1000 < body.prompt.length →
        (POSTgenerate body provider db env st).status = 400
        ∧ jsMember (POSTgenerate body provider db env st).body "success" = some (Json.bool false)
        ∧ jsMember (POSTgenerate body provider db env st).body "error" =
            some (Json.str "Validation error")
        ∧ jsMember (POSTgenerate body provider db env st).body "details" =
            some (zodIssuesToJson (generateSchemaCheck body))
        ∧ (POSTgenerate body provider db env st).providerCalled = false
        ∧ (POSTgenerate body provider db env st).db = st) := by
  constructor
  · rintro ⟨h1, h2⟩
    unfold generateSchemaCheck
    rw [if_neg (by omega), if_neg (by omega)]
    rfl
  · intro h
    rcases h with h0 | h0
    · have hc : generateSchemaCheck body = [ZodIssue.mk "Prompt is required"] := by
        unfold generateSchemaCheck
        rw [if_pos (by omega), if_neg (by omega)]
        rfl
      simp only [POSTgenerate, hc]
      repeat' apply And.intro
      all_goals trivial
    · have hc : generateSchemaCheck body = [ZodIssue.mk "Prompt is too long"] := by
        unfold generateSchemaCheck
        rw [if_neg (by omega), if_pos (by omega)]
        rfl
      simp only [POSTgenerate, hc]
      repeat' apply And.intro
      all_goals trivial

/-- Witness for C5: a two-character prompt passes; the empty prompt yields a
400 with no provider call and no insert. -/
theorem generate_validation_bounds_witness :
    generateSchemaCheck ⟨"hi", none, none⟩ = []
    ∧ (POSTgenerate ⟨"", none, none⟩ (ProviderResult.message (some "x"))
        DbBehavior.available "development" ⟨1, 100, []⟩).status = 400
    ∧ (POSTgenerate ⟨"", none, none⟩ (ProviderResult.message (some "x"))
        DbBehavior.available "development" ⟨1, 100, []⟩).providerCalled = false
    ∧ (POSTgenerate ⟨"", none, none⟩ (ProviderResult.message (some "x"))
        DbBehavior.available "development" ⟨1, 100, []⟩).db = ⟨1, 100, []⟩ := by
  refine ⟨?_, ?_, ?_, ?_⟩
  · exact (generate_validation_bounds ⟨"hi", none, none⟩ (ProviderResult.message (some "x"))
      DbBehavior.available "development" ⟨1, 100, []⟩).1 (by decide)
  · exact ((generate_validation_bounds ⟨"", none, none⟩ (ProviderResult.message (some "x"))
      DbBehavior.available "development" ⟨1, 100, []⟩).2 (Or.inl rfl)).1
  · exact ((generate_validation_bounds ⟨"", none, none⟩ (ProviderResult.message (some "x"))
      DbBehavior.available "development" ⟨1, 100, []⟩).2 (Or.inl rfl)).2.2.2.2.1
  · exact ((generate_validation_bounds ⟨"", none, none⟩ (ProviderResult.message (some "x"))
      DbBehavior.available "development" ⟨1, 100, []⟩).2 (Or.inl rfl)).2.2.2.2.2

/-- Claim C6: when the provider call of a validated request raises the
rate-limit condition (an OpenAI.APIError with status 429), the handler
answers 429 with success false and the store is left unchanged. -/
theorem generate_rate_limit_429 (body : GenerateRequest) (m : String) (db : DbBehavior)
    (env : String) (st : PrismaState)
    (hv : generateSchemaCheck body = []) :
    (POSTgenerate body (ProviderResult.apiError 429 m) db env st).status = 429
    ∧ jsMember (POSTgenerate body (ProviderResult.apiError 429 m) db env st).body "success" =
        some (Json.bool false)
    ∧ jsMember (POSTgenerate body (ProviderResult.apiError 429 m) db env st).body "error" =
        some (Json.str "Rate limit exceeded. Please try again in a moment.")
    ∧ (POSTgenerate body (ProviderResult.apiError 429 m) db env st).db = st := by
  have hgen : generateSocialMediaContent (ProviderResult.apiError 429 m) =
      Except.error "Rate limit exceeded. Please try again in a moment." := rfl
  have hinc : strIncludes "Rate limit exceeded. Please try again in a moment." "Rate limit" =
      true := by decide
  simp only [POSTgenerate, hv, hgen, hinc, if_true]
  repeat' apply And.intro
  all_goals trivial

/-- Witness for C6: a concrete rate-limited request answers 429 and inserts
nothing. -/
theorem generate_rate_limit_429_witness :
    (POSTgenerate ⟨"Hello topic", none, none⟩ (ProviderResult.apiError 429 "too many")
        DbBehavior.available "production" ⟨1, 100, []⟩).status = 429
    ∧ (POSTgenerate ⟨"Hello topic", none, none⟩ (ProviderResult.apiError 429 "too many")
        DbBehavior.available "production" ⟨1, 100, []⟩).db = ⟨1, 100, []⟩ := by
  have h := generate_rate_limit_429 ⟨"Hello topic", none, none⟩ "too many"
    DbBehavior.available "production" ⟨1, 100, []⟩ (by decide)
  exact ⟨h.1, h.2.2.2⟩

/-- Claim C9: when the persistence backend raises its
connection-initialization failure, both handlers answer 503 with success
false, the error string Database connection failed, and a details diagnostic
equal to the underlying message exactly in development mode and a fixed
generic string otherwise; the generate handler leaves the store unchanged. -/
theorem db_unavailable_503 (body : GenerateRequest) (raw m env : String) (st : PrismaState)
    (rows : List Post) (userIdParam : Option String) (limit offset : Nat)
    (hv : generateSchemaCheck body = []) (hraw : raw ≠ "") :
    (POSTgenerate body (ProviderResult.message (some raw))
        (DbBehavior.connectionFailure m) env st).status = 503
    ∧ (POSTgenerate body (ProviderResult.message (some raw))
        (DbBehavior.connectionFailure m) env st).db = st
    ∧ jsMember (POSTgenerate body (ProviderResult.message (some raw))
        (DbBehavior.connectionFailure m) env st).body "success" = some (Json.bool false)
    ∧ jsMember (POSTgenerate body (ProviderResult.message (some raw))
        (DbBehavior.connectionFailure m) env st).body "error" =
        some (Json.str "Database connection failed")
    ∧ jsMember (POSTgenerate body (ProviderResult.message (some raw))
        (DbBehavior.connectionFailure m) env st).body "details" =
        some (Json.str (if env == "development" then m
          else "Database connection error. Check your configuration."))
    ∧ (GETposts userIdParam limit offset (DbBehavior.connectionFailure m) env rows).1 = 503
    ∧ jsMember (GETposts userIdParam limit offset
        (DbBehavior.connectionFailure m) env rows).2 "success" = some (Json.bool false)
    ∧ jsMember (GETposts userIdParam limit offset
        (DbBehavior.connectionFailure m) env rows).2 "error" =
        some (Json.str "Database connection failed")
    ∧ jsMember (GETposts userIdParam limit offset
        (DbBehavior.connectionFailure m) env rows).2 "details" =
        some (Json.str (if env == "development" then m
          else "Database connection error. Check your configuration.")) := by
  have hgen : generateSocialMediaContent (ProviderResult.message (some raw)) =
      Except.ok (parseProviderContent raw) := by
    show (if raw == "" then Except.error "No content generated from OpenAI"
      else Except.ok (parseProviderContent raw)) = _
    rw [if_neg (by rw [ne_empty_beq_false hraw]; exact Bool.false_ne_true)]
  simp only [POSTgenerate, hv, hgen, GETposts, dbConnectionFailedBody]
  repeat' apply And.intro
  all_goals trivial

/-- Witness for C9: a concrete connection failure in development mode, hit
from both routes, surfaces 503 with the full underlying message in details. -/
theorem db_unavailable_503_witness :
    (POSTgenerate ⟨"Hello topic", none, none⟩ (ProviderResult.message (some "text"))
        (DbBehavior.connectionFailure "ECONNREFUSED") "development" ⟨1, 100, []⟩).status = 503
    ∧ jsMember (POSTgenerate ⟨"Hello topic", none, none⟩ (ProviderResult.message (some "text"))
        (DbBehavior.connectionFailure "ECONNREFUSED") "development" ⟨1, 100, []⟩).body "details" =
        some (Json.str "ECONNREFUSED")
    ∧ (GETposts none 10 0 (DbBehavior.connectionFailure "ECONNREFUSED") "development" []).1 = 503 := by
  have h := db_unavailable_503 ⟨"Hello topic", none, none⟩ "text" "ECONNREFUSED" "development"
    ⟨1, 100, []⟩ [] none 10 0 (by decide) (by decide)
  exact ⟨h.1, (h.2.2.2.2.1).trans (by decide), h.2.2.2.2.2.1⟩

/-- Claim C7: the listing returns at most limit items — the page obtained by
skipping offset records of the matching set sorted descending by createdAt
(the sort is a permutation of the matching set and is pairwise descending);
total counts all matching records irrespective of pagination; hasMore equals
offset + limit < total; and on a 15-record store a page of limit 10 and
offset 0 has 10 items with total 15 and hasMore true while offset 10 yields
the remaining 5 with hasMore false. -/
theorem posts_list_pagination (rows : List Post) (userIdParam : Option String)
    (limit offset : Nat) (env : String) :
    (findManyPosts rows (whereUserId userIdParam) limit offset).length ≤ limit
    ∧ findManyPosts rows (whereUserId userIdParam) limit offset =
        ((sortByCreatedAtDesc (rows.filter (matchesWhere (whereUserId userIdParam)))).drop
          offset).take limit
    ∧ (sortByCreatedAtDesc (rows.filter (matchesWhere (whereUserId userIdParam)))).Perm
        (rows.filter (matchesWhere (whereUserId userIdParam)))
    ∧ (sortByCreatedAtDesc (rows.filter (matchesWhere (whereUserId userIdParam)))).Pairwise
        createdAtGe
    ∧ countPosts rows (whereUserId userIdParam) =
        (rows.filter (matchesWhere (whereUserId userIdParam))).length
    ∧ jsMember (GETposts userIdParam limit offset DbBehavior.available env rows).2 "data" =
        some (Json.arr ((findManyPosts rows (whereUserId userIdParam) limit offset).map postToJson))
    ∧ jsMember (GETposts userIdParam limit offset DbBehavior.available env rows).2 "pagination" =
        some (Json.obj [
          ("total", Json.num (Nat.repr (countPosts rows (whereUserId userIdParam)))),
          ("limit", Json.num (Nat.repr limit)),
          ("offset", Json.num (Nat.repr offset)),
          ("hasMore", Json.bool (decide (offset + limit < countPosts rows (whereUserId userIdParam))))])
    ∧ (findManyPosts demoRows15 (whereUserId none) 10 0).length = 10
    ∧ (findManyPosts demoRows15 (whereUserId none) 10 10).length = 5
    ∧ jsMember (GETposts none 10 0 DbBehavior.available "production" demoRows15).2 "pagination" =
        some (Json.obj [("total", Json.num "15"), ("limit", Json.num "10"),
          ("offset", Json.num "0"), ("hasMore", Json.bool true)])
    ∧ jsMember (GETposts none 10 10 DbBehavior.available "production" demoRows15).2 "pagination" =
        some (Json.obj [("total", Json.num "15"), ("limit", Json.num "10"),
          ("offset", Json.num "10"), ("hasMore", Json.bool false)]) := by
  refine ⟨?_, rfl, sortByCreatedAtDesc_perm _, sortByCreatedAtDesc_pairwise _, rfl, rfl, rfl,
    by decide, by decide, by decide, by decide⟩
  show (((sortByCreatedAtDesc
    (rows.filter (matchesWhere (whereUserId userIdParam)))).drop offset).take limit).length ≤ limit
  rw [List.length_take]
  exact min_le_left _ _

/-- Claim C8: with a non-empty userId the listing only ever returns records
whose userId equals it (null or different values are excluded), and without a
userId no filter is applied: the page is cut from all records. -/
theorem posts_list_userId_filter (rows : List Post) (u : String) (limit offset : Nat)
    (hu : u ≠ "") :
    (∀ p, p ∈ findManyPosts rows (whereUserId (some u)) limit offset → p.userId = some u)
    ∧ findManyPosts rows (whereUserId none) limit offset =
        ((sortByCreatedAtDesc rows).drop offset).take limit := by
  constructor
  · intro p hp
    have hw : whereUserId (some u) = some u := by
      show (if (u == "") = true then none else some u) = some u
      rw [ne_empty_beq_false hu]
      rfl
    rw [hw] at hp
    have h1 : p ∈ (sortByCreatedAtDesc (rows.filter (matchesWhere (some u)))).drop offset :=
      List.mem_of_mem_take hp
    have h2 : p ∈ sortByCreatedAtDesc (rows.filter (matchesWhere (some u))) :=
      List.mem_of_mem_drop h1
    have h3 : p ∈ rows.filter (matchesWhere (some u)) :=
      (sortByCreatedAtDesc_perm _).mem_iff.mp h2
    have h4 : (p.userId == some u) = true := (List.mem_filter.mp h3).2
    exact beq_iff_eq.mp h4
  · have hfil : rows.filter (matchesWhere none) = rows := by
      induction rows with
      | nil => rfl
      | cons q qs ih => simp [List.filter_cons, matchesWhere, ih]
    show ((sortByCreatedAtDesc (rows.filter (matchesWhere none))).drop offset).take limit = _
    rw [hfil]

/-- Witness for C8: over the mixed store the page for userId u1 contains the
post with id 1, and the theorem pins its userId to u1. -/
theorem posts_list_userId_filter_witness :
    demoPostU1 ∈ findManyPosts demoMixedRows (whereUserId (some "u1")) 10 0
    ∧ demoPostU1.userId = some "u1" := by
  refine ⟨by decide, ?_⟩
  exact (posts_list_userId_filter demoMixedRows "u1" 10 0 (by decide)).1 demoPostU1 (by decide)

/-- Claim C10: a present-but-empty userId query parameter is falsy, so the
route passes no where clause at all: the response is identical to the one for
an absent userId, for every store, page and backend behaviour. -/
theorem posts_list_empty_userId (rows : List Post) (limit offset : Nat)
    (db : DbBehavior) (env : String) :
    GETposts (some "") limit offset db env rows = GETposts none limit offset db env rows := by
  cases db <;> rfl
